import Mathlib

/-!
Shallow embedding of src/extract_pdf.py, a PDF text-extraction script that
tries three backend libraries (PyPDF2, pdfminer.six, PyMuPDF), collects the
successful outputs, and merges them into a Markdown report.

The three backend libraries are external black boxes.  Each one is modelled
by a behaviour value: `Except Unit (List String)` for the page-iterating
backends (an exception anywhere in the call, or the list of per-page texts)
and `Except Unit String` for pdfminer.high_level.extract_text (an exception,
or the whole-document text).  Console printing, which the script uses only
for diagnostics, is not modelled.  The file write at lines 130-136 of the
source is modelled as an effect recorded in the run outcome, with a world
flag saying whether the write raises.
-/

namespace ExtractPdf

/-- Truthiness of the Python expression s.strip(): true exactly when the
string has at least one non-whitespace character.  Used by the source at
lines 25, 40 and 60. -/
def hasContent (s : String) : Bool :=
  s.data.any (fun c => !c.isWhitespace)

/-- Page block appended by the PyPDF2 loop body (source lines 26-27): the
page-marker line followed by the page text and a newline. -/
def pypdf2Block (pageNum : Nat) (pageText : String) : String :=
  "\n=== 第 " ++ toString pageNum ++ " 页 (PyPDF2) ===\n" ++ pageText ++ "\n"

/-- Loop of extract_with_pypdf2 (source lines 23-27): pages are numbered
from 1 by enumerate(reader.pages, 1); a page is appended only when its
stripped text is truthy. -/
def pypdf2Loop : Nat → List String → String
  | _, [] => ""
  | n, p :: rest =>
      if hasContent p then pypdf2Block n p ++ pypdf2Loop (n + 1) rest
      else pypdf2Loop (n + 1) rest

/-- extract_with_pypdf2 (source lines 12-32).  Any exception from the
backend is caught and converted to None; otherwise the accumulated text is
returned, which is the empty string when no page qualifies. -/
def extract_with_pypdf2 (backendBehavior : Except Unit (List String)) :
    Option String :=
  match backendBehavior with
  | Except.error _ => none
  | Except.ok pages => some (pypdf2Loop 1 pages)

/-- extract_with_pdfminer (source lines 34-45).  Any exception is caught
and converted to None; a whole-document text that strips to empty also
yields None; otherwise the text is wrapped in a single labelled section. -/
def extract_with_pdfminer (backendBehavior : Except Unit String) :
    Option String :=
  match backendBehavior with
  | Except.error _ => none
  | Except.ok text =>
      if hasContent text then
        some ("\n=== PDFMiner提取结果 ===\n" ++ text ++ "\n")
      else none

/-- Page block appended by the PyMuPDF loop body (source lines 61-62). -/
def pymupdfBlock (pageNum : Nat) (pageText : String) : String :=
  "\n=== 第 " ++ toString pageNum ++ " 页 (PyMuPDF) ===\n" ++ pageText ++ "\n"

/-- Loop of extract_with_pymupdf (source lines 57-62): page_num runs over
range(len(doc)) and the marker shows page_num + 1, so blocks are numbered
from 1 exactly as in the PyPDF2 loop. -/
def pymupdfLoop : Nat → List String → String
  | _, [] => ""
  | n, p :: rest =>
      if hasContent p then pymupdfBlock n p ++ pymupdfLoop (n + 1) rest
      else pymupdfLoop (n + 1) rest

/-- extract_with_pymupdf (source lines 47-68).  Any exception from the
backend is caught and converted to None; otherwise the accumulated text is
returned, which is the empty string when no page qualifies. -/
def extract_with_pymupdf (backendBehavior : Except Unit (List String)) :
    Option String :=
  match backendBehavior with
  | Except.error _ => none
  | Except.ok pages => some (pymupdfLoop 1 pages)

/-- The three backend identities, in the fixed order in which the
orchestrator invokes them (source lines 81-100). -/
inductive Backend
  | PyPDF2
  | PDFMiner
  | PyMuPDF
  deriving DecidableEq, Repr

/-- Environment of one orchestrator run: whether the input path exists,
the behaviour of each backend library, the timestamp produced by
datetime.now(), and whether the output-file write raises. -/
structure World where
  pathExists : Bool
  pypdf2Behavior : Except Unit (List String)
  pdfminerBehavior : Except Unit String
  pymupdfBehavior : Except Unit (List String)
  timestamp : String
  writeFails : Bool

/-- Truthiness of an optional Python string: None and the empty string are
falsy.  This is the test applied at source lines 84, 91 and 98. -/
def truthy : Option String → Bool
  | none => false
  | some s => s != ""

/-- Conditional insertion into the results dict (source lines 84-85, 91-92,
98-99): the backend key is present exactly when the returned text is
truthy, and then it maps to that text. -/
def toEntry (t : Option String) : Option String :=
  if truthy t then t else none

/-- The results dict of the orchestrator (source line 79).  Its possible
keys are the three fixed backend names; insertion order, hence iteration
order, is PyPDF2, PDFMiner, PyMuPDF.  A field is some text exactly when
the corresponding key is present. -/
structure Results where
  pypdf2 : Option String
  pdfminer : Option String
  pymupdf : Option String
  deriving DecidableEq, Repr

/-- Results dict built by running all three extractors (source lines
81-100). -/
def buildResults (w : World) : Results where
  pypdf2 := toEntry (extract_with_pypdf2 w.pypdf2Behavior)
  pdfminer := toEntry (extract_with_pdfminer w.pdfminerBehavior)
  pymupdf := toEntry (extract_with_pymupdf w.pymupdfBehavior)

/-- len(results): the number of keys present in the dict. -/
def resultsLen (r : Results) : Nat :=
  (if r.pypdf2.isSome then 1 else 0) +
    (if r.pdfminer.isSome then 1 else 0) +
    (if r.pymupdf.isSome then 1 else 0)

/-- Dict lookup results[name], as a partial operation: none models a
KeyError. -/
def lookupResult (r : Results) : String → Option String
  | "PyPDF2" => r.pypdf2
  | "PDFMiner" => r.pdfminer
  | "PyMuPDF" => r.pymupdf
  | _ => none

/-- Modelled from the spec: the fixed static priority list of section 4.2,
highest-quality backend first, written as the spec words it.  The code
realises it as an if/elif chain; the refinement theorem for C1 compares
the two. -/
def priorityOrder : List String :=
  ["PyMuPDF", "PDFMiner", "PyPDF2"]

/-- Best-result selection (source lines 109-118): the if/elif chain keyed
on membership, whose final branch reads results[PyPDF2] unconditionally.
A missing key there would raise KeyError, modelled as none. -/
def selectBest (r : Results) : Option (String × String) :=
  match r.pymupdf with
  | some t => some (t, "PyMuPDF")
  | none =>
      match r.pdfminer with
      | some t => some (t, "PDFMiner")
      | none =>
          match r.pypdf2 with
          | some t => some (t, "PyPDF2")
          | none => none

/-- Report header (source line 107): title, source path, timestamp. -/
def reportHeader (pdfPath timestamp : String) : String :=
  "# PDF文本提取结果\n\n文件: " ++ pdfPath ++ "\n提取时间: " ++ timestamp
    ++ "\n\n"

/-- Main-content section (source line 120), labelled with the chosen
backend name. -/
def mainSection (method bestText : String) : String :=
  "## 主要内容 (使用 " ++ method ++ ")\n\n" ++ bestText ++ "\n\n"

/-- One iteration of the reference loop (source lines 125-127): a backend
key other than the chosen method contributes a labelled subsection. -/
def refEntry (methodName : String) (t : Option String) (method : String) :
    String :=
  match t with
  | none => ""
  | some text =>
      if methodName = method then ""
      else "### " ++ methodName ++ "\n\n" ++ text ++ "\n\n"

/-- Reference part of the report (source lines 123-127): emitted only when
more than one backend succeeded, iterating the dict in insertion order. -/
def refBlock (r : Results) (method : String) : String :=
  if 1 < resultsLen r then
    "## 其他方法提取结果（参考）\n\n"
      ++ refEntry "PyPDF2" r.pypdf2 method
      ++ refEntry "PDFMiner" r.pdfminer method
      ++ refEntry "PyMuPDF" r.pymupdf method
  else ""

/-- Observable outcome of one orchestrator run: the returned value, the
extractors invoked in order, and the file write that happened (output
path and content), if any. -/
structure RunOutcome where
  result : Option String
  invoked : List Backend
  written : Option (String × String)
  deriving DecidableEq, Repr

/-- extract_pdf_text (source lines 70-138).  The outer Option models an
uncaught exception escaping the orchestrator: none would mean the KeyError
of the final selection branch (the only statement of the function not
guarded by a try or a membership test).  The write failure at lines
131-136 is caught, so it only suppresses the recorded write effect. -/
def extract_pdf_text (w : World) (pdfPath : String)
    (outputPath : Option String) : Option RunOutcome :=
  if w.pathExists = false then
    some { result := none, invoked := [], written := none }
  else
    let r := buildResults w
    let inv := [Backend.PyPDF2, Backend.PDFMiner, Backend.PyMuPDF]
    if resultsLen r = 0 then
      some { result := none, invoked := inv, written := none }
    else
      match selectBest r with
      | none => none
      | some (bestText, method) =>
          let combined := reportHeader pdfPath w.timestamp
            ++ mainSection method bestText ++ refBlock r method
          let written :=
            match outputPath with
            | none => none
            | some pth =>
                if w.writeFails then none else some (pth, combined)
          some { result := some combined, invoked := inv, written := written }

/-- Pairs each list element with its position, counting from n.  Used to
state which pages of the backend input contribute a block. -/
def enumFrom : Nat → List String → List (Nat × String)
  | _, [] => []
  | n, p :: rest => (n, p) :: enumFrom (n + 1) rest

/-- Concatenation of a list of strings, in order. -/
def concatAll : List String → String
  | [] => ""
  | s :: rest => s ++ concatAll rest

/-- Concrete run environment in which the input file exists and every
backend raises. -/
def allErrorWorld : World where
  pathExists := true
  pypdf2Behavior := Except.error ()
  pdfminerBehavior := Except.error ()
  pymupdfBehavior := Except.error ()
  timestamp := "2024-01-01 00:00:00"
  writeFails := false

/-- Concrete run environment in which only PyPDF2 succeeds, with a single
page of text. -/
def onlyPypdf2World : World where
  pathExists := true
  pypdf2Behavior := Except.ok ["A"]
  pdfminerBehavior := Except.error ()
  pymupdfBehavior := Except.error ()
  timestamp := "2024-01-01 00:00:00"
  writeFails := false

/-- Concrete run environment in which PyPDF2 and PDFMiner succeed while
PyMuPDF raises. -/
def twoSuccessWorld : World where
  pathExists := true
  pypdf2Behavior := Except.ok ["A"]
  pdfminerBehavior := Except.ok "B"
  pymupdfBehavior := Except.error ()
  timestamp := "2024-01-01 00:00:00"
  writeFails := false

/-- Concrete run environment whose input path does not exist; the backends
would succeed if consulted. -/
def missingFileWorld : World where
  pathExists := false
  pypdf2Behavior := Except.ok ["A"]
  pdfminerBehavior := Except.ok "B"
  pymupdfBehavior := Except.ok ["C"]
  timestamp := "2024-01-01 00:00:00"
  writeFails := false

end ExtractPdf

namespace ExtractPdf

theorem pypdf2Loop_eq_concat (n : Nat) (pages : List String) :
    pypdf2Loop n pages =
      concatAll (((enumFrom n pages).filter (fun q => hasContent q.2)).map
        (fun q => pypdf2Block q.1 q.2)) := by
  induction pages generalizing n with
  | nil => rfl
  | cons p rest ih =>
      cases h : hasContent p with
      | true => simp [pypdf2Loop, enumFrom, h, concatAll, ih]
      | false => simp [pypdf2Loop, enumFrom, h, concatAll, ih]

theorem pymupdfLoop_eq_concat (n : Nat) (pages : List String) :
    pymupdfLoop n pages =
      concatAll (((enumFrom n pages).filter (fun q => hasContent q.2)).map
        (fun q => pymupdfBlock q.1 q.2)) := by
  induction pages generalizing n with
  | nil => rfl
  | cons p rest ih =>
      cases h : hasContent p with
      | true => simp [pymupdfLoop, enumFrom, h, concatAll, ih]
      | false => simp [pymupdfLoop, enumFrom, h, concatAll, ih]

theorem selectBest_isSome_of_ne (r : Results) (h : resultsLen r ≠ 0) :
    ∃ t m, selectBest r = some (t, m) := by
  rcases r with ⟨p2, pm, mu⟩
  cases mu with
  | some t => exact ⟨t, "PyMuPDF", rfl⟩
  | none =>
      cases pm with
      | some t => exact ⟨t, "PDFMiner", rfl⟩
      | none =>
          cases p2 with
          | some t => exact ⟨t, "PyPDF2", rfl⟩
          | none => simp [resultsLen] at h

theorem resultsLen_ne_zero_of_selectBest (r : Results) (t m : String)
    (h : selectBest r = some (t, m)) : resultsLen r ≠ 0 := by
  rcases r with ⟨p2, pm, mu⟩
  cases mu <;> cases pm <;> cases p2 <;>
    simp_all [selectBest, resultsLen]

theorem extract_pdf_text_spec (w : World) (p : String) (o : Option String)
    (t m : String) (hex : w.pathExists = true)
    (hsel : selectBest (buildResults w) = some (t, m)) :
    extract_pdf_text w p o = some {
      result := some (reportHeader p w.timestamp ++ mainSection m t
        ++ refBlock (buildResults w) m),
      invoked := [Backend.PyPDF2, Backend.PDFMiner, Backend.PyMuPDF],
      written := match o with
        | none => none
        | some pth =>
            if w.writeFails then none
            else some (pth, reportHeader p w.timestamp ++ mainSection m t
              ++ refBlock (buildResults w) m) } := by
  have hne := resultsLen_ne_zero_of_selectBest _ _ _ hsel
  simp [extract_pdf_text, hex, hne, hsel]

theorem extract_isSome (w : World) (p : String) (o : Option String) :
    (extract_pdf_text w p o).isSome = true := by
  cases hex : w.pathExists with
  | false => simp [extract_pdf_text, hex]
  | true =>
      by_cases h0 : resultsLen (buildResults w) = 0
      · simp [extract_pdf_text, hex, h0]
      · obtain ⟨t, m, hsel⟩ := selectBest_isSome_of_ne _ h0
        rw [extract_pdf_text_spec w p o t m hex hsel]
        rfl

theorem extract_invoked (w : World) (p : String) (o : Option String)
    (hex : w.pathExists = true) :
    ∃ out, extract_pdf_text w p o = some out ∧
      out.invoked = [Backend.PyPDF2, Backend.PDFMiner, Backend.PyMuPDF] := by
  by_cases h0 : resultsLen (buildResults w) = 0
  · refine ⟨RunOutcome.mk none
        [Backend.PyPDF2, Backend.PDFMiner, Backend.PyMuPDF] none, ?_, rfl⟩
    simp [extract_pdf_text, hex, h0]
  · obtain ⟨t, m, hsel⟩ := selectBest_isSome_of_ne _ h0
    exact ⟨_, extract_pdf_text_spec w p o t m hex hsel, rfl⟩

theorem selectBest_eq_priority (r : Results) (h : resultsLen r ≠ 0) :
    ∃ name t,
      priorityOrder.find? (fun n => (lookupResult r n).isSome) = some name ∧
      lookupResult r name = some t ∧
      selectBest r = some (t, name) := by
  rcases r with ⟨p2, pm, mu⟩
  cases mu with
  | some t => exact ⟨"PyMuPDF", t, rfl, rfl, rfl⟩
  | none =>
      cases pm with
      | some t => exact ⟨"PDFMiner", t, rfl, rfl, rfl⟩
      | none =>
          cases p2 with
          | some t => exact ⟨"PyPDF2", t, rfl, rfl, rfl⟩
          | none => simp [resultsLen] at h

theorem refBlock_eq_empty (r : Results) (m : String) (h : resultsLen r = 1) :
    refBlock r m = "" := by
  simp [refBlock, h]

end ExtractPdf

namespace ExtractPdf

/-- C1: whenever the successful-results mapping is non-empty, the main
content section of the report is the text of the first backend present in
the mapping according to the fixed priority order PyMuPDF, then PDFMiner,
then PyPDF2, and that section is labelled with the name of that backend. -/
theorem primary_section_follows_priority (w : World) (p : String)
    (o : Option String) (hex : w.pathExists = true)
    (hne : resultsLen (buildResults w) ≠ 0) :
    ∃ name t out,
      priorityOrder.find? (fun n => (lookupResult (buildResults w) n).isSome)
        = some name ∧
      lookupResult (buildResults w) name = some t ∧
      extract_pdf_text w p o = some out ∧
      out.result = some (reportHeader p w.timestamp ++ mainSection name t
        ++ refBlock (buildResults w) name) := by
  obtain ⟨name, t, hfind, hlook, hsel⟩ := selectBest_eq_priority _ hne
  exact ⟨name, t, _, hfind, hlook,
    extract_pdf_text_spec w p o t name hex hsel, rfl⟩

/-- Witness for C1: with PyPDF2 and PDFMiner successful and PyMuPDF
raising, the primary is PDFMiner. -/
theorem primary_section_follows_priority_witness :
    twoSuccessWorld.pathExists = true ∧
    resultsLen (buildResults twoSuccessWorld) ≠ 0 ∧
    (∃ name t out,
      priorityOrder.find?
          (fun n => (lookupResult (buildResults twoSuccessWorld) n).isSome)
        = some name ∧
      lookupResult (buildResults twoSuccessWorld) name = some t ∧
      extract_pdf_text twoSuccessWorld "f.pdf" none = some out ∧
      out.result = some (reportHeader "f.pdf" twoSuccessWorld.timestamp
        ++ mainSection name t
        ++ refBlock (buildResults twoSuccessWorld) name)) :=
  ⟨rfl, by decide,
    primary_section_follows_priority twoSuccessWorld "f.pdf" none rfl
      (by decide)⟩

/-- C2: whatever the three backend libraries do, a raising backend is
caught at the boundary of its own extractor, which returns None; the
results mapping then excludes that backend; and the orchestrator never
lets an exception escape. -/
theorem backend_error_isolated (w : World) (p : String) (o : Option String) :
    (∀ e, w.pypdf2Behavior = Except.error e →
        extract_with_pypdf2 w.pypdf2Behavior = none ∧
          (buildResults w).pypdf2 = none) ∧
    (∀ e, w.pdfminerBehavior = Except.error e →
        extract_with_pdfminer w.pdfminerBehavior = none ∧
          (buildResults w).pdfminer = none) ∧
    (∀ e, w.pymupdfBehavior = Except.error e →
        extract_with_pymupdf w.pymupdfBehavior = none ∧
          (buildResults w).pymupdf = none) ∧
    (extract_pdf_text w p o).isSome = true := by
  refine ⟨fun e he => ⟨?_, ?_⟩, fun e he => ⟨?_, ?_⟩, fun e he => ⟨?_, ?_⟩,
    extract_isSome w p o⟩
  · simp [he, extract_with_pypdf2]
  · simp [buildResults, he, toEntry, truthy, extract_with_pypdf2]
  · simp [he, extract_with_pdfminer]
  · simp [buildResults, he, toEntry, truthy, extract_with_pdfminer]
  · simp [he, extract_with_pymupdf]
  · simp [buildResults, he, toEntry, truthy, extract_with_pymupdf]

/-- Witness for C2: a run where all three backends raise. -/
theorem backend_error_isolated_witness :
    extract_with_pypdf2 allErrorWorld.pypdf2Behavior = none ∧
    (buildResults allErrorWorld).pypdf2 = none ∧
    extract_with_pdfminer allErrorWorld.pdfminerBehavior = none ∧
    (buildResults allErrorWorld).pdfminer = none ∧
    extract_with_pymupdf allErrorWorld.pymupdfBehavior = none ∧
    (buildResults allErrorWorld).pymupdf = none ∧
    (extract_pdf_text allErrorWorld "f.pdf" none).isSome = true := by
  obtain ⟨h1, h2, h3, h4⟩ := backend_error_isolated allErrorWorld "f.pdf" none
  obtain ⟨a1, a2⟩ := h1 () rfl
  obtain ⟨b1, b2⟩ := h2 () rfl
  obtain ⟨c1, c2⟩ := h3 () rfl
  exact ⟨a1, a2, b1, b2, c1, c2, h4⟩

/-- C3: when the input path does not reference an existing file, the
orchestrator returns None at once, invoking no extractor and writing
nothing. -/
theorem missing_file_fast_fail (w : World) (p : String) (o : Option String)
    (h : w.pathExists = false) :
    extract_pdf_text w p o =
      some { result := none, invoked := [], written := none } := by
  simp [extract_pdf_text, h]

/-- Witness for C3: a run whose input path is missing. -/
theorem missing_file_fast_fail_witness :
    missingFileWorld.pathExists = false ∧
    extract_pdf_text missingFileWorld "f.pdf" (some "out.md") =
      some { result := none, invoked := [], written := none } :=
  ⟨rfl, missing_file_fast_fail missingFileWorld "f.pdf" (some "out.md") rfl⟩

/-- C4: when every extractor comes back falsy (None or the empty string),
the orchestrator returns None and no output file is written, even though
an output path was supplied. -/
theorem all_backends_failed_no_output (w : World) (p : String)
    (o : Option String) (hex : w.pathExists = true)
    (h1 : truthy (extract_with_pypdf2 w.pypdf2Behavior) = false)
    (h2 : truthy (extract_with_pdfminer w.pdfminerBehavior) = false)
    (h3 : truthy (extract_with_pymupdf w.pymupdfBehavior) = false) :
    extract_pdf_text w p o =
      some { result := none,
             invoked := [Backend.PyPDF2, Backend.PDFMiner, Backend.PyMuPDF],
             written := none } := by
  have hr : buildResults w = Results.mk none none none := by
    simp [buildResults, toEntry, h1, h2, h3]
  simp [extract_pdf_text, hex, hr, resultsLen]

/-- Witness for C4: all three backends raise and an output path is
supplied; nothing is returned and nothing is written. -/
theorem all_backends_failed_no_output_witness :
    allErrorWorld.pathExists = true ∧
    truthy (extract_with_pypdf2 allErrorWorld.pypdf2Behavior) = false ∧
    truthy (extract_with_pdfminer allErrorWorld.pdfminerBehavior) = false ∧
    truthy (extract_with_pymupdf allErrorWorld.pymupdfBehavior) = false ∧
    extract_pdf_text allErrorWorld "f.pdf" (some "out.md") =
      some { result := none,
             invoked := [Backend.PyPDF2, Backend.PDFMiner, Backend.PyMuPDF],
             written := none } :=
  ⟨rfl, rfl, rfl, rfl,
    all_backends_failed_no_output allErrorWorld "f.pdf" (some "out.md")
      rfl rfl rfl rfl⟩

end ExtractPdf

namespace ExtractPdf

/-- C5 counterexample: the claim that an extractor can only return a
non-empty blob or the failure value None fails on PyPDF2 when the only
page strips to whitespace: the extractor then returns the empty string,
which is neither failure (None) nor a non-empty blob. -/
theorem extractor_outcome_counterexample :
    extract_with_pypdf2 (Except.ok [" "]) = some "" ∧
    ¬(extract_with_pypdf2 (Except.ok [" "]) = none ∨
      ∀ s, extract_with_pypdf2 (Except.ok [" "]) = some s → s ≠ "") := by
  refine ⟨by decide, ?_⟩
  intro h
  cases h with
  | inl h => exact absurd h (by decide)
  | inr h => exact h "" (by decide) rfl

/-- C5 (amended): an extractor returns None when its backend raises; the
page-iterating extractors PyPDF2 and PyMuPDF otherwise return exactly the
concatenation of one labelled block per page with non-whitespace content,
which is the empty string when no page qualifies; PDFMiner returns None or
a single labelled section holding a whole-document text with content; and
the orchestrator treats the empty string as falsy, so it counts as a
failed backend. -/
theorem extractor_outcome_shapes :
    (∀ e, extract_with_pypdf2 (Except.error e) = none) ∧
    (∀ pages, extract_with_pypdf2 (Except.ok pages) =
        some (concatAll
          (((enumFrom 1 pages).filter (fun q => hasContent q.2)).map
            (fun q => pypdf2Block q.1 q.2)))) ∧
    (∀ e, extract_with_pymupdf (Except.error e) = none) ∧
    (∀ pages, extract_with_pymupdf (Except.ok pages) =
        some (concatAll
          (((enumFrom 1 pages).filter (fun q => hasContent q.2)).map
            (fun q => pymupdfBlock q.1 q.2)))) ∧
    (∀ b, extract_with_pdfminer b = none ∨
        ∃ txt, hasContent txt = true ∧
          extract_with_pdfminer b =
            some ("\n=== PDFMiner提取结果 ===\n" ++ txt ++ "\n")) ∧
    truthy (some "") = false := by
  refine ⟨fun e => rfl, fun pages => ?_, fun e => rfl, fun pages => ?_,
    fun b => ?_, rfl⟩
  · exact congrArg some (pypdf2Loop_eq_concat 1 pages)
  · exact congrArg some (pymupdfLoop_eq_concat 1 pages)
  · cases b with
    | error e => exact Or.inl rfl
    | ok txt =>
        cases h : hasContent txt with
        | true =>
            exact Or.inr ⟨txt, h, by simp [extract_with_pdfminer, h]⟩
        | false => exact Or.inl (by simp [extract_with_pdfminer, h])

/-- C6: whenever the input file exists, the orchestrator invokes all three
extractors, in the fixed order PyPDF2, PDFMiner, PyMuPDF, regardless of
any earlier success. -/
theorem all_extractors_invoked_in_order (w : World) (p : String)
    (o : Option String) (hex : w.pathExists = true) :
    ∃ out, extract_pdf_text w p o = some out ∧
      out.invoked = [Backend.PyPDF2, Backend.PDFMiner, Backend.PyMuPDF] :=
  extract_invoked w p o hex

/-- Witness for C6: a run where the first extractor already succeeds still
invokes the remaining two. -/
theorem all_extractors_invoked_in_order_witness :
    onlyPypdf2World.pathExists = true ∧
    (∃ out, extract_pdf_text onlyPypdf2World "f.pdf" none = some out ∧
      out.invoked = [Backend.PyPDF2, Backend.PDFMiner, Backend.PyMuPDF]) :=
  ⟨rfl, all_extractors_invoked_in_order onlyPypdf2World "f.pdf" none rfl⟩

/-- C7: a page whose text strips to whitespace contributes no page-marker
line and no text: processing it equals processing the remaining pages
with the next page number, and the whole output consists of labelled
blocks for exactly the content-bearing pages.  This holds for both
page-iterating extractor loops. -/
theorem whitespace_pages_skipped (n : Nat) (p : String)
    (pages : List String) (h : hasContent p = false) :
    pypdf2Loop n (p :: pages) = pypdf2Loop (n + 1) pages ∧
    pymupdfLoop n (p :: pages) = pymupdfLoop (n + 1) pages ∧
    pypdf2Loop n (p :: pages) =
      concatAll
        (((enumFrom (n + 1) pages).filter (fun q => hasContent q.2)).map
          (fun q => pypdf2Block q.1 q.2)) ∧
    pymupdfLoop n (p :: pages) =
      concatAll
        (((enumFrom (n + 1) pages).filter (fun q => hasContent q.2)).map
          (fun q => pymupdfBlock q.1 q.2)) := by
  have h2 : pypdf2Loop n (p :: pages) = pypdf2Loop (n + 1) pages := by
    simp [pypdf2Loop, h]
  have h3 : pymupdfLoop n (p :: pages) = pymupdfLoop (n + 1) pages := by
    simp [pymupdfLoop, h]
  exact ⟨h2, h3, h2.trans (pypdf2Loop_eq_concat _ _),
    h3.trans (pymupdfLoop_eq_concat _ _)⟩

/-- Witness for C7: a whitespace-only first page followed by a content
page. -/
theorem whitespace_pages_skipped_witness :
    hasContent " " = false ∧
    (pypdf2Loop 1 (" " :: ["A"]) = pypdf2Loop 2 ["A"] ∧
     pymupdfLoop 1 (" " :: ["A"]) = pymupdfLoop 2 ["A"] ∧
     pypdf2Loop 1 (" " :: ["A"]) =
       concatAll
         (((enumFrom 2 ["A"]).filter (fun q => hasContent q.2)).map
           (fun q => pypdf2Block q.1 q.2)) ∧
     pymupdfLoop 1 (" " :: ["A"]) =
       concatAll
         (((enumFrom 2 ["A"]).filter (fun q => hasContent q.2)).map
           (fun q => pymupdfBlock q.1 q.2))) :=
  ⟨by decide, whitespace_pages_skipped 1 " " ["A"] (by decide)⟩

end ExtractPdf

namespace ExtractPdf

/-- C8: when exactly one backend succeeded, the report is exactly the
header followed by the main section holding that backend's stored text,
with no reference header and no reference subsection. -/
theorem single_success_has_no_reference (w : World) (p : String)
    (o : Option String) (hex : w.pathExists = true)
    (hone : resultsLen (buildResults w) = 1) :
    ∃ name t out,
      lookupResult (buildResults w) name = some t ∧
      extract_pdf_text w p o = some out ∧
      out.result =
        some (reportHeader p w.timestamp ++ mainSection name t) := by
  have hne : resultsLen (buildResults w) ≠ 0 := by omega
  obtain ⟨name, t, hfind, hlook, hsel⟩ := selectBest_eq_priority _ hne
  refine ⟨name, t, _, hlook,
    extract_pdf_text_spec w p o t name hex hsel, ?_⟩
  show some (reportHeader p w.timestamp ++ mainSection name t
      ++ refBlock (buildResults w) name) =
    some (reportHeader p w.timestamp ++ mainSection name t)
  rw [refBlock_eq_empty _ _ hone]
  simp

/-- Witness for C8: only PyPDF2 succeeds; the report has a main section
and nothing after it. -/
theorem single_success_has_no_reference_witness :
    onlyPypdf2World.pathExists = true ∧
    resultsLen (buildResults onlyPypdf2World) = 1 ∧
    (∃ name t out,
      lookupResult (buildResults onlyPypdf2World) name = some t ∧
      extract_pdf_text onlyPypdf2World "f.pdf" none = some out ∧
      out.result =
        some (reportHeader "f.pdf" onlyPypdf2World.timestamp
          ++ mainSection name t)) :=
  ⟨rfl, by decide,
    single_success_has_no_reference onlyPypdf2World "f.pdf" none rfl
      (by decide)⟩

/-- C9: when at least one backend succeeded and an output path was
supplied, the returned report text is the same whether the file write
succeeds or raises; the write failure is caught. -/
theorem write_failure_keeps_result (w : World) (p pth : String)
    (hex : w.pathExists = true)
    (hne : resultsLen (buildResults w) ≠ 0) :
    ∃ text,
      (extract_pdf_text { w with writeFails := false } p (some pth)).map
        RunOutcome.result = some (some text) ∧
      (extract_pdf_text { w with writeFails := true } p (some pth)).map
        RunOutcome.result = some (some text) := by
  obtain ⟨t, m, hsel⟩ := selectBest_isSome_of_ne _ hne
  refine ⟨reportHeader p w.timestamp ++ mainSection m t
    ++ refBlock (buildResults w) m, ?_, ?_⟩
  · rw [extract_pdf_text_spec { w with writeFails := false } p (some pth)
      t m hex hsel]
    rfl
  · rw [extract_pdf_text_spec { w with writeFails := true } p (some pth)
      t m hex hsel]
    rfl

/-- Witness for C9: a run with one successful backend, evaluated with the
write succeeding and with the write raising. -/
theorem write_failure_keeps_result_witness :
    onlyPypdf2World.pathExists = true ∧
    resultsLen (buildResults onlyPypdf2World) ≠ 0 ∧
    (∃ text,
      (extract_pdf_text { onlyPypdf2World with writeFails := false }
          "f.pdf" (some "out.md")).map RunOutcome.result
        = some (some text) ∧
      (extract_pdf_text { onlyPypdf2World with writeFails := true }
          "f.pdf" (some "out.md")).map RunOutcome.result
        = some (some text)) :=
  ⟨rfl, by decide,
    write_failure_keeps_result onlyPypdf2World "f.pdf" "out.md" rfl
      (by decide)⟩

/-- C10: on a non-empty results mapping the selection step is total: it
always yields a value, and the fallback that reads the PyPDF2 entry
unconditionally is reached only when neither PyMuPDF nor PDFMiner is
present, in which case the PyPDF2 entry must be present, so no KeyError
can be raised. -/
theorem selection_never_raises (r : Results)
    (h : ¬(r.pypdf2 = none ∧ r.pdfminer = none ∧ r.pymupdf = none)) :
    (selectBest r).isSome = true ∧
    ∀ t, selectBest r = some (t, "PyPDF2") →
      r.pymupdf = none ∧ r.pdfminer = none ∧ r.pypdf2 = some t := by
  rcases r with ⟨p2, pm, mu⟩
  cases mu with
  | some t =>
      refine ⟨rfl, fun t' ht => ?_⟩
      have hs : ("PyMuPDF" : String) = "PyPDF2" :=
        congrArg Prod.snd (Option.some.inj ht)
      exact absurd hs (by decide)
  | none =>
      cases pm with
      | some t =>
          refine ⟨rfl, fun t' ht => ?_⟩
          have hs : ("PDFMiner" : String) = "PyPDF2" :=
            congrArg Prod.snd (Option.some.inj ht)
          exact absurd hs (by decide)
      | none =>
          cases p2 with
          | some t =>
              exact ⟨rfl, fun t' ht =>
                ⟨rfl, rfl,
                  congrArg some (congrArg Prod.fst (Option.some.inj ht))⟩⟩
          | none => exact absurd ⟨rfl, rfl, rfl⟩ h

/-- Witness for C10: a mapping holding only the PyPDF2 entry. -/
theorem selection_never_raises_witness :
    ¬((Results.mk (some "x") none none).pypdf2 = none ∧
      (Results.mk (some "x") none none).pdfminer = none ∧
      (Results.mk (some "x") none none).pymupdf = none) ∧
    (selectBest (Results.mk (some "x") none none)).isSome = true ∧
    ∀ t, selectBest (Results.mk (some "x") none none) = some (t, "PyPDF2") →
      (Results.mk (some "x") none none).pymupdf = none ∧
      (Results.mk (some "x") none none).pdfminer = none ∧
      (Results.mk (some "x") none none).pypdf2 = some t := by
  have h := selection_never_raises (Results.mk (some "x") none none)
    (by decide)
  exact ⟨by decide, h.1, h.2⟩

end ExtractPdf
